import Mathlib

/-!
Shallow embedding of the Student Management System core (file src/managers.py,
schema from src/database.py).  The relational store is modelled as explicit
lists of typed rows; SQLite REAL values are modelled exactly by rationals;
Python functions that raise become functions into Except.  Each definition
mirrors one Python function or SQL statement of the source.
-/

namespace SMS

/-- Row of the students table: id TEXT PRIMARY KEY, name NOT NULL,
email UNIQUE (nullable), major, enrollment_year, gpa REAL DEFAULT 0.0,
status DEFAULT active. -/
structure Student where
  id : String
  name : String
  email : Option String
  major : Option String
  enrollmentYear : Int
  gpa : ℚ
  status : String
deriving DecidableEq

/-- Row of the courses table: id TEXT PRIMARY KEY, name, semester,
credits INTEGER CHECK 1..6, instructor, max_capacity. -/
structure Course where
  id : String
  name : String
  semester : String
  credits : Int
  instructor : Option String
  maxCapacity : Int
deriving DecidableEq

/-- Row of the grades table: student_id, course_id, grade REAL, letter_grade,
with UNIQUE(student_id, course_id).  The autoincrement rowid and the
graded_at timestamp play no role in the verified claims and are omitted. -/
structure Grade where
  studentId : String
  courseId : String
  grade : ℚ
  letter : String
deriving DecidableEq

/-- Row of the activity_log table (timestamp omitted). -/
structure LogEntry where
  userId : Int
  action : String
  details : String
deriving DecidableEq

/-- The database state: the four tables the grade/analytics engine touches. -/
structure DBState where
  students : List Student
  courses : List Course
  grades : List Grade
  log : List LogEntry
deriving DecidableEq

/-- ActivityLog.log: INSERT INTO activity_log (user_id, action, details). -/
def ActivityLog.log (user_id : Int) (action details : String) (st : DBState) : DBState :=
  { st with log := st.log ++ [⟨user_id, action, details⟩] }

/-- Python round(x, 2): round to 2 decimal places, ties to even
(Python 3 banker rounding). -/
def round2 (q : ℚ) : ℚ :=
  let x := q * 100
  let n : Int :=
    if Int.fract x < 1/2 then ⌊x⌋
    else if 1/2 < Int.fract x then ⌊x⌋ + 1
    else if ⌊x⌋ % 2 = 0 then ⌊x⌋ else ⌊x⌋ + 1
  (n : ℚ) / 100

namespace GradeManager

/-- GradeManager.calculate_letter from src/managers.py lines 123-129. -/
def calculate_letter (grade : ℚ) : String :=
  if 90 ≤ grade then "A"
  else if 80 ≤ grade then "B"
  else if 70 ≤ grade then "C"
  else if 60 ≤ grade then "D"
  else "F"

/-- GradeManager.grade_to_gpa_points from src/managers.py lines 131-137. -/
def grade_to_gpa_points (grade : ℚ) : ℚ :=
  if 90 ≤ grade then 4
  else if 80 ≤ grade then 3
  else if 70 ≤ grade then 2
  else if 60 ≤ grade then 1
  else 0

end GradeManager

/-- The SELECT of update_student_gpa: grades of the given student joined with
the credits of their course (JOIN courses c ON c.id = g.course_id
WHERE g.student_id = sid).  A grade row whose course id resolves to no
course row produces no joined row, exactly as in SQL. -/
def studentCredJoin (st : DBState) (sid : String) : List (ℚ × Int) :=
  st.grades.filterMap fun g =>
    if g.studentId == sid then
      (st.courses.find? fun c => c.id == g.courseId).map fun c => (g.grade, c.credits)
    else none

/-- The grade rows of one student (WHERE g.student_id = sid, before the join). -/
def studentGradeRows (st : DBState) (sid : String) : List Grade :=
  st.grades.filter fun g => g.studentId == sid

/-- Credits of the course a grade row references, 0 when the course is absent
(used only to state properties; under referential integrity the lookup
always succeeds). -/
def creditsOf (st : DBState) (g : Grade) : Int :=
  ((st.courses.find? fun c => c.id == g.courseId).map fun c => c.credits).getD 0

/-- Stored gpa of the first students row with the given id, none if absent. -/
def getGpa (st : DBState) (sid : String) : Option ℚ :=
  (st.students.find? fun s => s.id == sid).map fun s => s.gpa

namespace GradeManager

/-- GradeManager.update_student_gpa from src/managers.py lines 157-177:
joins the student grades with course credits; returns early when the join is
empty; otherwise accumulates total_points and total_credits over the rows and,
when total_credits is positive, writes round(gpa, 2) back to the student row
(UPDATE students SET gpa = ? WHERE id = ?). -/
def update_student_gpa (sid : String) (st : DBState) : DBState :=
  let result := studentCredJoin st sid
  if result = [] then st
  else
    let total_points : ℚ := (result.map fun p => grade_to_gpa_points p.1 * (p.2 : ℚ)).sum
    let total_credits : Int := (result.map fun p => p.2).sum
    if 0 < total_credits then
      { st with students := st.students.map fun s =>
          if s.id = sid then { s with gpa := round2 (total_points / (total_credits : ℚ)) }
          else s }
    else st

/-- GradeManager.add from src/managers.py lines 139-155.  The raw grade input
is the result of the float(...) parse: none models a value that does not parse
as a number (the raises of float and the range check both surface as the same
ValueError).  On success: INSERT OR REPLACE the grades row for the
(student, course) pair, recalculate the gpa, append the audit entry. -/
def add (sid cid : String) (gradeInput : Option ℚ) (user_id : Int) (st : DBState) :
    Except String DBState :=
  match gradeInput with
  | none => .error "Invalid grade value"
  | some grade =>
    if 0 ≤ grade ∧ grade ≤ 100 then
      let letter := calculate_letter grade
      let st1 := { st with grades :=
        (st.grades.filter fun r => !(r.studentId == sid && r.courseId == cid)) ++
          [{ studentId := sid, courseId := cid, grade := grade, letter := letter }] }
      let st2 := update_student_gpa sid st1
      .ok (ActivityLog.log user_id "add_grade"
        ("Grade " ++ toString grade ++ " for " ++ sid ++ " in " ++ cid) st2)
    else .error "Invalid grade value"

end GradeManager

/-- One failing-students report row: s.name, s.id, s.email, c.name, g.grade,
g.letter_grade. -/
structure FailingRow where
  studentName : String
  studentId : String
  email : Option String
  courseName : String
  grade : ℚ
  letter : String
deriving DecidableEq

/-- ORDER BY s.name, c.name of the failing-students query. -/
def failingLE (r1 r2 : FailingRow) : Prop :=
  r1.studentName < r2.studentName ∨
    (r1.studentName = r2.studentName ∧ r1.courseName ≤ r2.courseName)

instance : DecidableRel failingLE := fun a b => by
  unfold failingLE; exact inferInstance

/-- Body of the failing-students query before ORDER BY: FROM grades JOIN
students JOIN courses WHERE g.grade < 60. -/
def failingRowsUnsorted (st : DBState) : List FailingRow :=
  st.grades.filterMap fun g =>
    if g.grade < (60 : ℚ) then
      match st.students.find? fun s => s.id == g.studentId,
            st.courses.find? fun c => c.id == g.courseId with
      | some s, some c => some ⟨s.name, s.id, s.email, c.name, g.grade, g.letter⟩
      | _, _ => none
    else none

/-- GradeManager.get_failing_students from src/managers.py lines 179-188:
SELECT ... FROM grades JOIN students JOIN courses WHERE g.grade < 60
ORDER BY s.name, c.name. -/
def GradeManager.get_failing_students (st : DBState) : List FailingRow :=
  List.insertionSort failingLE (failingRowsUnsorted st)

/-- One gpa-rankings row: name, id, gpa and the per-student grade count
(SELECT COUNT(star) FROM grades WHERE student_id = students.id). -/
structure RankRow where
  name : String
  id : String
  gpa : ℚ
  courses : Nat
deriving DecidableEq

/-- ORDER BY gpa DESC of the rankings query. -/
def rankingLE (r1 r2 : RankRow) : Prop := r2.gpa ≤ r1.gpa

instance : DecidableRel rankingLE := fun a b => by
  unfold rankingLE; exact inferInstance

/-- The SELECT clause of get_gpa_rankings applied to one students row. -/
def rankRowOf (st : DBState) (s : Student) : RankRow :=
  { name := s.name, id := s.id, gpa := s.gpa,
    courses := (st.grades.filter fun g => g.studentId == s.id).length }

/-- Analytics.get_gpa_rankings from src/managers.py lines 191-199:
SELECT name, id, gpa, courseCount FROM students WHERE gpa > 0
ORDER BY gpa DESC. -/
def Analytics.get_gpa_rankings (st : DBState) : List RankRow :=
  List.insertionSort rankingLE
    ((st.students.filter fun s => decide (0 < s.gpa)).map (rankRowOf st))

/-- One academic-status row: a rankings row plus the standing label. -/
structure StatusRow where
  name : String
  id : String
  gpa : ℚ
  courses : Nat
  status : String
deriving DecidableEq

/-- Analytics.get_academic_status from src/managers.py lines 201-215: walks
the rankings and attaches the standing classification of each gpa. -/
def Analytics.get_academic_status (st : DBState) : List StatusRow :=
  (Analytics.get_gpa_rankings st).map fun r =>
    { name := r.name, id := r.id, gpa := r.gpa, courses := r.courses,
      status :=
        if (3.5 : ℚ) ≤ r.gpa then "Dean\x27s List"
        else if (2 : ℚ) ≤ r.gpa then "Good Standing"
        else if (1 : ℚ) ≤ r.gpa then "Warning"
        else "Academic Probation" }

/-- One parsed CSV row of the student import.  The id and name columns are
modelled as present strings; the optional columns as Option.  yearField
models the three outcomes of int(row.get(..., 2024)): none when the column
is absent (Python then uses the default 2024), some none when the value body
does not parse as an int (the int call raises and the row is skipped by the
except clause), some (some y) when it parses to y. -/
structure CsvRow where
  id : String
  name : String
  email : Option String
  major : Option String
  yearField : Option (Option Int)
deriving DecidableEq

/-- Result of int(row.get(..., 2024)): default, failure or parsed value. -/
def yearValue : Option (Option Int) → Option Int
  | none => some 2024
  | some none => none
  | some (some y) => some y

/-- INSERT OR IGNORE INTO students: a violated constraint (duplicate id,
duplicate non-null email) makes the statement a no-op without raising. -/
def insertOrIgnoreStudent (st : DBState) (r : CsvRow) (year : Int) : DBState :=
  let conflict := st.students.any (fun s => s.id == r.id) ||
    (match r.email with
     | some e => st.students.any fun s => s.email == some e
     | none => false)
  if conflict then st
  else { st with students := st.students ++
    [{ id := r.id, name := r.name, email := r.email, major := r.major,
       enrollmentYear := year, gpa := 0, status := "active" }] }

/-- ImportExport.import_students_csv from src/managers.py lines 231-247:
per row, run INSERT OR IGNORE and increment count; a row whose year value
raises in int() is skipped by the except clause without counting; finally
append the audit entry and return the state with the count. -/
def ImportExport.import_students_csv (rows : List CsvRow) (user_id : Int) (st : DBState) :
    DBState × Nat :=
  let res := rows.foldl (fun (acc : DBState × Nat) row =>
    match yearValue row.yearField with
    | none => acc
    | some y => (insertOrIgnoreStudent acc.1 row y, acc.2 + 1)) (st, 0)
  (ActivityLog.log user_id "import_students"
    ("Imported " ++ toString res.2 ++ " students") res.1, res.2)


/-! Helper characterisations of update_student_gpa used by several proofs. -/

/-- The gpa value update_student_gpa writes for the given student, none when
the function performs no UPDATE (empty join or nonpositive credit total). -/
def gpaNew (st : DBState) (sid : String) : Option ℚ :=
  let result := studentCredJoin st sid
  if result = [] then none
  else
    let total_points : ℚ := (result.map fun p => GradeManager.grade_to_gpa_points p.1 * (p.2 : ℚ)).sum
    let total_credits : Int := (result.map fun p => p.2).sum
    if 0 < total_credits then some (round2 (total_points / (total_credits : ℚ)))
    else none

lemma update_student_gpa_eq (sid : String) (st : DBState) :
    GradeManager.update_student_gpa sid st =
      match gpaNew st sid with
      | some v => { st with students := st.students.map fun s =>
          if s.id = sid then { s with gpa := v } else s }
      | none => st := by
  simp only [GradeManager.update_student_gpa, gpaNew]
  split_ifs <;> rfl

lemma gpaNew_congr {st1 st2 : DBState} (sid : String)
    (h1 : st1.grades = st2.grades) (h2 : st1.courses = st2.courses) :
    gpaNew st1 sid = gpaNew st2 sid := by
  simp only [gpaNew, studentCredJoin, h1, h2]

lemma update_student_gpa_grades (sid : String) (st : DBState) :
    (GradeManager.update_student_gpa sid st).grades = st.grades := by
  rw [update_student_gpa_eq]; cases gpaNew st sid <;> rfl

lemma update_student_gpa_courses (sid : String) (st : DBState) :
    (GradeManager.update_student_gpa sid st).courses = st.courses := by
  rw [update_student_gpa_eq]; cases gpaNew st sid <;> rfl

lemma update_student_gpa_log (sid : String) (st : DBState) :
    (GradeManager.update_student_gpa sid st).log = st.log := by
  rw [update_student_gpa_eq]; cases gpaNew st sid <;> rfl

lemma map_set_gpa_overwrite (l : List Student) (sid : String) (v w : ℚ) :
    ((l.map fun s => if s.id = sid then { s with gpa := w } else s).map
        fun s => if s.id = sid then { s with gpa := v } else s) =
      l.map fun s => if s.id = sid then { s with gpa := v } else s := by
  rw [List.map_map]
  apply List.map_congr_left
  intro s _
  by_cases h : s.id = sid <;> simp [h]

/-- Claim C6: recalculating the gpa twice in a row with no intervening grade,
course or student change leaves exactly the state one recalculation leaves
(idempotence of update_student_gpa). -/
theorem update_student_gpa_idempotent (sid : String) (st : DBState) :
    GradeManager.update_student_gpa sid (GradeManager.update_student_gpa sid st) =
      GradeManager.update_student_gpa sid st := by
  have hnew : gpaNew (GradeManager.update_student_gpa sid st) sid = gpaNew st sid :=
    gpaNew_congr sid (update_student_gpa_grades sid st) (update_student_gpa_courses sid st)
  rw [update_student_gpa_eq sid (GradeManager.update_student_gpa sid st), hnew,
    update_student_gpa_eq sid st]
  cases h : gpaNew st sid with
  | none => rfl
  | some v =>
    dsimp only
    congr 1
    exact map_set_gpa_overwrite st.students sid v v

lemma join_eq_rows_aux (courses : List Course) (sid : String) :
    ∀ gs : List Grade,
      (∀ g ∈ gs, g.studentId = sid → ∃ c ∈ courses, c.id = g.courseId) →
      (gs.filterMap fun g =>
          if g.studentId == sid then
            (courses.find? fun c => c.id == g.courseId).map fun c => (g.grade, c.credits)
          else none) =
        (gs.filter fun g => g.studentId == sid).map fun g =>
          (g.grade, ((courses.find? fun c => c.id == g.courseId).map fun c => c.credits).getD 0) := by
  intro gs
  induction gs with
  | nil => intro _; rfl
  | cons g gs ih =>
    intro h
    have htail := ih fun g0 hg0 hgs0 => h g0 (List.mem_cons_of_mem _ hg0) hgs0
    simp only [List.filterMap_cons, List.filter_cons]
    by_cases hs : g.studentId = sid
    · have hfind : ((courses.find? fun c => c.id == g.courseId)).isSome := by
        rw [List.find?_isSome]
        obtain ⟨c, hc, hcid⟩ := h g (List.mem_cons_self g gs) hs
        exact ⟨c, hc, by simp [hcid]⟩
      obtain ⟨c, hc⟩ := Option.isSome_iff_exists.mp hfind
      simpa [hs, hc] using htail
    · simpa [hs] using htail

lemma studentCredJoin_eq_rows (st : DBState) (sid : String)
    (hfk : ∀ g ∈ st.grades, g.studentId = sid → ∃ c ∈ st.courses, c.id = g.courseId) :
    studentCredJoin st sid = (studentGradeRows st sid).map fun g => (g.grade, creditsOf st g) := by
  simp only [studentCredJoin, studentGradeRows, creditsOf]
  exact join_eq_rows_aux st.courses sid st.grades hfk

lemma find?_map_set_gpa (l : List Student) (sid : String) (v : ℚ) :
    ((l.map fun s => if s.id = sid then { s with gpa := v } else s).find? fun s => s.id == sid) =
      (l.find? fun s => s.id == sid).map fun s => if s.id = sid then { s with gpa := v } else s := by
  rw [List.find?_map]
  have hcomp : ((fun s : Student => s.id == sid) ∘ fun s =>
      if s.id = sid then { s with gpa := v } else s) = fun s => s.id == sid := by
    funext s
    by_cases h : s.id = sid <;> simp [h, Function.comp]
  rw [hcomp]

lemma getGpa_set (st : DBState) (sid : String) (v : ℚ) :
    getGpa { st with students := st.students.map fun s =>
        if s.id = sid then { s with gpa := v } else s } sid =
      (getGpa st sid).map fun _ => v := by
  unfold getGpa
  show ((st.students.map fun s => if s.id = sid then { s with gpa := v } else s).find?
      fun s => s.id == sid).map (fun s => s.gpa) = _
  rw [find?_map_set_gpa]
  cases h : st.students.find? fun s => s.id == sid with
  | none => rfl
  | some s =>
    have hp := List.find?_some h
    simp only [beq_iff_eq] at hp
    simp [hp]

/-- Claim C1: update_student_gpa leaves the stored gpa unchanged when the
student has zero grade rows, and otherwise (under the schema constraints:
every referenced course exists and course credits are at least 1) writes back
the credit-weighted average of the gpa points of the student grade rows,
rounded to two decimals. -/
theorem update_student_gpa_spec (st : DBState) (sid : String)
    (hcr : ∀ c ∈ st.courses, 1 ≤ c.credits)
    (hfk : ∀ g ∈ st.grades, g.studentId = sid → ∃ c ∈ st.courses, c.id = g.courseId) :
    (studentGradeRows st sid = [] → GradeManager.update_student_gpa sid st = st) ∧
    (studentGradeRows st sid ≠ [] →
      getGpa (GradeManager.update_student_gpa sid st) sid =
        (getGpa st sid).map fun _ => round2
          ((((studentGradeRows st sid).map fun g =>
              GradeManager.grade_to_gpa_points g.grade * (creditsOf st g : ℚ)).sum) /
            ((((studentGradeRows st sid).map fun g => creditsOf st g).sum : Int) : ℚ))) := by
  have hjoin := studentCredJoin_eq_rows st sid hfk
  constructor
  · intro hnil
    rw [update_student_gpa_eq]
    have hnone : gpaNew st sid = none := by
      simp [gpaNew, hjoin, hnil]
    rw [hnone]
  · intro hne
    have h1 : studentCredJoin st sid ≠ [] := by
      rw [hjoin]; simpa using hne
    have h2 : ((studentCredJoin st sid).map fun p => p.2).sum =
        ((studentGradeRows st sid).map fun g => creditsOf st g).sum := by
      rw [hjoin, List.map_map]; rfl
    have h3 : ((studentCredJoin st sid).map fun p =>
          GradeManager.grade_to_gpa_points p.1 * (p.2 : ℚ)).sum =
        ((studentGradeRows st sid).map fun g =>
          GradeManager.grade_to_gpa_points g.grade * (creditsOf st g : ℚ)).sum := by
      rw [hjoin, List.map_map]; rfl
    have hpos : 0 < ((studentGradeRows st sid).map fun g => creditsOf st g).sum := by
      apply List.sum_pos
      · intro x hx
        obtain ⟨g, hg, rfl⟩ := List.mem_map.mp hx
        simp only [studentGradeRows] at hg
        obtain ⟨hmem, hsid⟩ := List.mem_filter.mp hg
        simp only [beq_iff_eq] at hsid
        obtain ⟨c, hc, hcid⟩ := hfk g hmem hsid
        have hfind : (st.courses.find? fun c0 => c0.id == g.courseId).isSome :=
          List.find?_isSome.mpr ⟨c, hc, by simp [hcid]⟩
        obtain ⟨c0, hc0⟩ := Option.isSome_iff_exists.mp hfind
        have hcred := hcr c0 (List.mem_of_find?_eq_some hc0)
        unfold creditsOf
        rw [hc0]
        simpa using lt_of_lt_of_le Int.zero_lt_one hcred
      · simpa [studentGradeRows] using hne
    have hv : gpaNew st sid = some (round2
        ((((studentGradeRows st sid).map fun g =>
            GradeManager.grade_to_gpa_points g.grade * (creditsOf st g : ℚ)).sum) /
          ((((studentGradeRows st sid).map fun g => creditsOf st g).sum : Int) : ℚ))) := by
      simp only [gpaNew]
      rw [if_neg h1, h2, h3, if_pos hpos]
    rw [update_student_gpa_eq, hv]
    exact getGpa_set st sid _

/-- Concrete state of the worked gpa example: one student, courses worth
3 and 4 credits, grades 95 (A) and 75 (C). -/
def exGpaState : DBState :=
  { students := [⟨"S1", "Alice", none, none, 2024, 0, "active"⟩],
    courses := [⟨"C1", "Math", "F24", 3, none, 30⟩, ⟨"C2", "Physics", "F24", 4, none, 30⟩],
    grades := [⟨"S1", "C1", 95, "A"⟩, ⟨"S1", "C2", 75, "C"⟩],
    log := [] }

lemma round2_20_7 : round2 (20 / 7) = 286 / 100 := by
  have hfloor : ⌊(20 / 7 : ℚ) * 100⌋ = 285 := by
    rw [Int.floor_eq_iff]
    norm_num
  simp only [round2, Int.fract, hfloor]
  norm_num

lemma exGpaState_eval :
    getGpa (GradeManager.update_student_gpa "S1" exGpaState) "S1" = some (286 / 100) := by
  have hjoin : studentCredJoin exGpaState "S1" = [(95, 3), (75, 4)] := by decide
  have hnew : gpaNew exGpaState "S1" = some (286 / 100) := by
    simp only [gpaNew, hjoin]
    rw [if_neg (by decide)]
    norm_num [GradeManager.grade_to_gpa_points]
    rw [round2_20_7]
    norm_num
  rw [update_student_gpa_eq, hnew]
  dsimp only
  rw [getGpa_set]
  have hg0 : getGpa exGpaState "S1" = some 0 := by decide
  rw [hg0]
  rfl

/-- Witness for C1 at the spec example: hypotheses hold for the concrete
two-course state, the theorem applies, and the stored gpa comes out as 2.86
(rounded from 20 divided by 7). -/
theorem update_student_gpa_spec_witness :
    ((∀ c ∈ exGpaState.courses, 1 ≤ c.credits) ∧
      (∀ g ∈ exGpaState.grades, g.studentId = "S1" →
        ∃ c ∈ exGpaState.courses, c.id = g.courseId)) ∧
    (studentGradeRows exGpaState "S1" ≠ [] →
      getGpa (GradeManager.update_student_gpa "S1" exGpaState) "S1" =
        (getGpa exGpaState "S1").map fun _ => round2
          ((((studentGradeRows exGpaState "S1").map fun g =>
              GradeManager.grade_to_gpa_points g.grade * (creditsOf exGpaState g : ℚ)).sum) /
            ((((studentGradeRows exGpaState "S1").map fun g =>
              creditsOf exGpaState g).sum : Int) : ℚ))) ∧
    getGpa (GradeManager.update_student_gpa "S1" exGpaState) "S1" = some (286 / 100) :=
  ⟨⟨by decide, by decide⟩,
    (update_student_gpa_spec exGpaState "S1" (by decide) (by decide)).2,
    exGpaState_eval⟩

/-- Claim C5: a grade input that does not parse as a number in [0,100] makes
GradeManager.add fail with the ValidationError message before performing any
write: the call returns the error value, so no grade row is inserted or
replaced, no gpa is updated and no activity-log entry is appended. -/
theorem add_rejects_invalid_grade (st : DBState) (sid cid : String) (u : Int)
    (gradeInput : Option ℚ)
    (hbad : ∀ g : ℚ, gradeInput = some g → ¬(0 ≤ g ∧ g ≤ 100)) :
    GradeManager.add sid cid gradeInput u st = .error "Invalid grade value" := by
  cases gradeInput with
  | none => rfl
  | some g =>
    simp only [GradeManager.add]
    rw [if_neg (hbad g rfl)]

/-- Witness for C5 at the out-of-range input 150 on the empty state. -/
theorem add_rejects_invalid_grade_witness :
    (∀ g : ℚ, (some (150 : ℚ) : Option ℚ) = some g → ¬(0 ≤ g ∧ g ≤ 100)) ∧
      GradeManager.add "S1" "C1" (some (150 : ℚ)) 1 ⟨[], [], [], []⟩ =
        .error "Invalid grade value" := by
  have hbad : ∀ g : ℚ, (some (150 : ℚ) : Option ℚ) = some g → ¬(0 ≤ g ∧ g ≤ 100) := by
    intro g hg
    obtain rfl : (150 : ℚ) = g := Option.some.inj hg
    intro hc
    exact absurd hc.2 (by norm_num)
  exact ⟨hbad, add_rejects_invalid_grade ⟨[], [], [], []⟩ "S1" "C1" 1 (some 150) hbad⟩

/-- Counterexample to claim C4 as stated: on a store with no students and no
courses at all, recording a grade does not fail with any error; it succeeds
and inserts the dangling grade row for the missing pair. -/
theorem add_missing_refs_cex :
    (GradeManager.add "S1" "C1" (some (75 : ℚ)) 1 ⟨[], [], [], []⟩).toOption.map
        DBState.grades = some [⟨"S1", "C1", 75, "C"⟩] := by
  rfl

/-- Claim C4 amended: GradeManager.add performs no existence check: whenever
the referenced student id or the referenced course id (either one, or both)
does not exist in the store, the call still succeeds and inserts the
(dangling) grade row.  The existence pre-checks live in the UI caller, not in
the engine. -/
theorem add_ignores_missing_refs (st : DBState) (sid cid : String) (u : Int) (g : ℚ)
    (hg : 0 ≤ g ∧ g ≤ 100)
    (hmiss : (∀ s ∈ st.students, s.id ≠ sid) ∨ (∀ c ∈ st.courses, c.id ≠ cid)) :
    ∃ st2, GradeManager.add sid cid (some g) u st = .ok st2 ∧
      ∃ r ∈ st2.grades, r.studentId = sid ∧ r.courseId = cid := by
  simp only [GradeManager.add]
  rw [if_pos hg]
  refine ⟨_, rfl, ⟨sid, cid, g, GradeManager.calculate_letter g⟩, ?_, rfl, rfl⟩
  show _ ∈ (ActivityLog.log u "add_grade" _ (GradeManager.update_student_gpa sid _)).grades
  have hlog : ∀ (u0 : Int) (a d : String) (x : DBState),
      (ActivityLog.log u0 a d x).grades = x.grades := fun _ _ _ _ => rfl
  rw [hlog, update_student_gpa_grades]
  simp

/-- Concrete mixed case for the amended C4: student S1 exists, no courses. -/
def exDanglingState : DBState :=
  { students := [⟨"S1", "Alice", none, none, 2024, 0, "active"⟩],
    courses := [], grades := [], log := [] }

/-- Witness for the amended C4 on a mixed case: the student S1 exists but the
referenced course does not, and the call still succeeds with a dangling row. -/
theorem add_ignores_missing_refs_witness :
    (((0 : ℚ) ≤ 75 ∧ (75 : ℚ) ≤ 100) ∧
      ((∀ s ∈ exDanglingState.students, s.id ≠ "S1") ∨
        (∀ c ∈ exDanglingState.courses, c.id ≠ "C1"))) ∧
    ∃ st2, GradeManager.add "S1" "C1" (some (75 : ℚ)) 1 exDanglingState = .ok st2 ∧
      ∃ r ∈ st2.grades, r.studentId = "S1" ∧ r.courseId = "C1" :=
  ⟨⟨⟨by decide, by decide⟩, Or.inr (by decide)⟩,
    add_ignores_missing_refs exDanglingState "S1" "C1" 1 75
      ⟨by decide, by decide⟩ (Or.inr (by decide))⟩

lemma log_grades (u : Int) (a d : String) (st : DBState) :
    (ActivityLog.log u a d st).grades = st.grades := rfl

lemma log_students (u : Int) (a d : String) (st : DBState) :
    (ActivityLog.log u a d st).students = st.students := rfl

lemma log_courses (u : Int) (a d : String) (st : DBState) :
    (ActivityLog.log u a d st).courses = st.courses := rfl

lemma update_student_gpa_students (sid : String) (st : DBState) :
    (GradeManager.update_student_gpa sid st).students =
      match gpaNew st sid with
      | some v => st.students.map fun s => if s.id = sid then { s with gpa := v } else s
      | none => st.students := by
  rw [update_student_gpa_eq]
  cases gpaNew st sid <;> rfl

lemma filter_pair_replace (gs : List Grade) (sid cid : String) (r : Grade)
    (h1 : r.studentId = sid) (h2 : r.courseId = cid) :
    ((gs.filter fun r0 => !(r0.studentId == sid && r0.courseId == cid)) ++ [r]).filter
        (fun r0 => !(r0.studentId == sid && r0.courseId == cid)) =
      gs.filter fun r0 => !(r0.studentId == sid && r0.courseId == cid) := by
  rw [List.filter_append, List.filter_filter]
  simp [h1, h2, Bool.and_self]

lemma join_grades_append (st : DBState) (gs : List Grade) (r : Grade) (sid : String) :
    studentCredJoin { st with grades := gs ++ [r] } sid =
      studentCredJoin { st with grades := gs } sid ++
        (if r.studentId == sid then
          (st.courses.find? fun c => c.id == r.courseId).map fun c => (r.grade, c.credits)
        else none).toList := by
  simp only [studentCredJoin, List.filterMap_append]
  congr 1

lemma gpaNew_isSome_congr (st1 st2 : DBState) (sid : String)
    (h : (studentCredJoin st1 sid).map (fun p => p.2) =
      (studentCredJoin st2 sid).map fun p => p.2) :
    (gpaNew st1 sid).isSome = (gpaNew st2 sid).isSome := by
  have he : studentCredJoin st1 sid = [] ↔ studentCredJoin st2 sid = [] := by
    constructor <;> intro hh
    · exact List.map_eq_nil_iff.mp (by rw [← h, hh, List.map_nil])
    · exact List.map_eq_nil_iff.mp (by rw [h, hh, List.map_nil])
  by_cases h1 : studentCredJoin st1 sid = []
  · simp [gpaNew, h1, he.mp h1]
  · have h2 : ¬studentCredJoin st2 sid = [] := fun hh => h1 (he.mpr hh)
    simp only [gpaNew, if_neg h1, if_neg h2]
    rw [h]
    by_cases htc : 0 < ((studentCredJoin st2 sid).map fun p => p.2).sum <;> simp [htc]

/-- The INSERT OR REPLACE step of GradeManager.add: drop any existing row for
the (student, course) pair and append the fresh row. -/
def upsertGrade (sid cid : String) (v : ℚ) (st : DBState) : DBState :=
  { st with grades :=
      (st.grades.filter fun r => !(r.studentId == sid && r.courseId == cid)) ++
        [{ studentId := sid, courseId := cid, grade := v,
           letter := GradeManager.calculate_letter v }] }

/-- The state a successful GradeManager.add leaves behind. -/
def addOkState (sid cid : String) (v : ℚ) (u : Int) (st : DBState) : DBState :=
  ActivityLog.log u "add_grade"
    ("Grade " ++ toString v ++ " for " ++ sid ++ " in " ++ cid)
    (GradeManager.update_student_gpa sid (upsertGrade sid cid v st))

lemma add_ok (sid cid : String) (v : ℚ) (u : Int) (st : DBState)
    (hv : 0 ≤ v ∧ v ≤ 100) :
    GradeManager.add sid cid (some v) u st = .ok (addOkState sid cid v u st) := by
  simp only [GradeManager.add, upsertGrade, addOkState]
  rw [if_pos hv]

lemma addOkState_grades (sid cid : String) (v : ℚ) (u : Int) (st : DBState) :
    (addOkState sid cid v u st).grades =
      (st.grades.filter fun r => !(r.studentId == sid && r.courseId == cid)) ++
        [{ studentId := sid, courseId := cid, grade := v,
           letter := GradeManager.calculate_letter v }] := by
  simp only [addOkState, log_grades, update_student_gpa_grades, upsertGrade]

lemma addOkState_students (sid cid : String) (v : ℚ) (u : Int) (st : DBState) :
    (addOkState sid cid v u st).students =
      (GradeManager.update_student_gpa sid (upsertGrade sid cid v st)).students := rfl

lemma addOkState_courses (sid cid : String) (v : ℚ) (u : Int) (st : DBState) :
    (addOkState sid cid v u st).courses = st.courses := by
  simp only [addOkState, log_courses, update_student_gpa_courses]; rfl

/-- Claim C3: recording a grade twice for the same existing (student, course)
pair with values 55 then 91 leaves exactly one grade row for the pair, with
value 91 and letter A, and leaves exactly the grades and the student rows
(hence the stored gpa) that recording 91 directly would leave: the stored gpa
reflects only the latest value. -/
theorem add_upsert_latest (st : DBState) (sid cid : String) (u : Int)
    (hs : ∃ s ∈ st.students, s.id = sid) (hc : ∃ c ∈ st.courses, c.id = cid) :
    ∃ st1 st2 st3,
      GradeManager.add sid cid (some 55) u st = .ok st1 ∧
      GradeManager.add sid cid (some 91) u st1 = .ok st2 ∧
      GradeManager.add sid cid (some 91) u st = .ok st3 ∧
      (st2.grades.filter fun r => r.studentId == sid && r.courseId == cid) =
        [{ studentId := sid, courseId := cid, grade := 91, letter := "A" }] ∧
      st2.grades = st3.grades ∧
      st2.students = st3.students := by
  have h55 : (0 : ℚ) ≤ 55 ∧ (55 : ℚ) ≤ 100 := by constructor <;> norm_num
  have h91 : (0 : ℚ) ≤ 91 ∧ (91 : ℚ) ≤ 100 := by constructor <;> norm_num
  refine ⟨_, _, _, add_ok sid cid 55 u st h55, add_ok sid cid 91 u _ h91,
    add_ok sid cid 91 u st h91, ?_, ?_, ?_⟩
  · rw [addOkState_grades, addOkState_grades,
      filter_pair_replace st.grades sid cid _ rfl rfl,
      List.filter_append, List.filter_filter]
    simp [show GradeManager.calculate_letter 91 = "A" from by decide]
  · rw [addOkState_grades, addOkState_grades, addOkState_grades,
      filter_pair_replace st.grades sid cid _ rfl rfl]
  · rw [addOkState_students, addOkState_students]
    have hYD : gpaNew (upsertGrade sid cid 91 (addOkState sid cid 55 u st)) sid =
        gpaNew (upsertGrade sid cid 91 st) sid := by
      apply gpaNew_congr
      · show (upsertGrade sid cid 91 (addOkState sid cid 55 u st)).grades =
          (upsertGrade sid cid 91 st).grades
        simp only [upsertGrade]
        rw [addOkState_grades, filter_pair_replace st.grades sid cid _ rfl rfl]
      · show (upsertGrade sid cid 91 (addOkState sid cid 55 u st)).courses =
          (upsertGrade sid cid 91 st).courses
        simp only [upsertGrade]
        rw [addOkState_courses]
    have hmap : (studentCredJoin (upsertGrade sid cid 55 st) sid).map (fun p => p.2) =
        (studentCredJoin (upsertGrade sid cid 91 st) sid).map fun p => p.2 := by
      simp only [upsertGrade]
      rw [join_grades_append, join_grades_append]
      simp only [List.map_append]
      congr 1
      simp only [beq_self_eq_true, if_true]
      cases st.courses.find? fun c => c.id == cid <;> simp
    have hiso : (gpaNew (upsertGrade sid cid 55 st) sid).isSome =
        (gpaNew (upsertGrade sid cid 91 st) sid).isSome :=
      gpaNew_isSome_congr _ _ sid hmap
    have hYs : (upsertGrade sid cid 91 (addOkState sid cid 55 u st)).students =
        (GradeManager.update_student_gpa sid (upsertGrade sid cid 55 st)).students := rfl
    have hDs : (upsertGrade sid cid 91 st).students = st.students := rfl
    rw [update_student_gpa_students, update_student_gpa_students, hYD]
    cases hwD : gpaNew (upsertGrade sid cid 91 st) sid with
    | none =>
      have hA : gpaNew (upsertGrade sid cid 55 st) sid = none := by
        rw [hwD] at hiso
        cases hA2 : gpaNew (upsertGrade sid cid 55 st) sid with
        | none => rfl
        | some v => rw [hA2] at hiso; simp at hiso
      rw [hYs, hDs, update_student_gpa_students, hA]
      rfl
    | some v =>
      rw [hYs, hDs, update_student_gpa_students]
      cases hA : gpaNew (upsertGrade sid cid 55 st) sid with
      | none => rfl
      | some v1 => exact map_set_gpa_overwrite st.students sid v v1

instance : IsTotal FailingRow failingLE := ⟨by
  intro a b
  unfold failingLE
  rcases lt_trichotomy a.studentName b.studentName with h | h | h
  · exact Or.inl (Or.inl h)
  · cases le_total a.courseName b.courseName with
    | inl hle => exact Or.inl (Or.inr ⟨h, hle⟩)
    | inr hle => exact Or.inr (Or.inr ⟨h.symm, hle⟩)
  · exact Or.inr (Or.inl h)⟩

instance : IsTrans FailingRow failingLE := ⟨by
  intro a b c hab hbc
  unfold failingLE at *
  rcases hab with h1 | ⟨h1, h1c⟩ <;> rcases hbc with h2 | ⟨h2, h2c⟩
  · exact Or.inl (lt_trans h1 h2)
  · exact Or.inl (by rw [← h2]; exact h1)
  · exact Or.inl (by rw [h1]; exact h2)
  · exact Or.inr ⟨h1.trans h2, le_trans h1c h2c⟩⟩

lemma find?_eq_some_of_nodup {α : Type} (key : α → String) (l : List α) (k : String) (x : α)
    (hnd : (l.map key).Nodup) (hx : x ∈ l) (hk : key x = k) :
    l.find? (fun y => key y == k) = some x := by
  induction l with
  | nil => cases hx
  | cons a t ih =>
    rw [List.map_cons, List.nodup_cons] at hnd
    rcases List.mem_cons.mp hx with rfl | hxt
    · exact List.find?_cons_of_pos t (by simp [hk])
    · have hka : ¬key a = k := by
        intro hcontra
        exact hnd.1 (by rw [hcontra, ← hk]; exact List.mem_map_of_mem key hxt)
      rw [List.find?_cons_of_neg t (by simp [hka])]
      exact ih hnd.2 hxt

lemma failing_len_aux (students : List Student) (courses : List Course) :
    ∀ gs : List Grade,
      (∀ g ∈ gs, (students.find? fun s => s.id == g.studentId).isSome ∧
        (courses.find? fun c => c.id == g.courseId).isSome) →
      (gs.filterMap fun g =>
          if g.grade < (60 : ℚ) then
            match students.find? fun s => s.id == g.studentId,
                  courses.find? fun c => c.id == g.courseId with
            | some s, some c =>
              some (⟨s.name, s.id, s.email, c.name, g.grade, g.letter⟩ : FailingRow)
            | _, _ => none
          else none).length =
        (gs.filter fun g => decide (g.grade < 60)).length := by
  intro gs
  induction gs with
  | nil => intro _; rfl
  | cons g t ih =>
    intro h
    have hg := h g (by simp)
    obtain ⟨s, hs⟩ := Option.isSome_iff_exists.mp hg.1
    obtain ⟨c, hc⟩ := Option.isSome_iff_exists.mp hg.2
    have ht := ih fun g0 hg0 => h g0 (by simp [hg0])
    by_cases hlt : g.grade < (60 : ℚ)
    · simp [List.filterMap_cons, List.filter_cons, hlt, hs, hc, ht]
    · simp [List.filterMap_cons, List.filter_cons, hlt, ht]

/-- Claim C7: under the schema constraints (unique student and course ids,
referential integrity of the grade rows), get_failing_students returns exactly
the grade rows strictly below 60, each joined with the student name, id and
email and the course name, sorted by student name then course name; it is
empty when no grade is below 60, and every listed row has grade strictly
below 60 (so a grade of exactly 60 is never listed). -/
theorem get_failing_students_spec (st : DBState)
    (hsn : (st.students.map fun s => s.id).Nodup)
    (hcn : (st.courses.map fun c => c.id).Nodup)
    (hfs : ∀ g ∈ st.grades, ∃ s ∈ st.students, s.id = g.studentId)
    (hfc : ∀ g ∈ st.grades, ∃ c ∈ st.courses, c.id = g.courseId) :
    List.Sorted failingLE (GradeManager.get_failing_students st) ∧
    (∀ r : FailingRow, r ∈ GradeManager.get_failing_students st ↔
      ∃ g ∈ st.grades, g.grade < 60 ∧
        ∃ s ∈ st.students, ∃ c ∈ st.courses, s.id = g.studentId ∧ c.id = g.courseId ∧
          r = ⟨s.name, s.id, s.email, c.name, g.grade, g.letter⟩) ∧
    (GradeManager.get_failing_students st).length =
      (st.grades.filter fun g => decide (g.grade < 60)).length ∧
    ((∀ g ∈ st.grades, ¬g.grade < 60) → GradeManager.get_failing_students st = []) ∧
    (∀ r ∈ GradeManager.get_failing_students st, r.grade < 60) := by
  have hmem : ∀ r : FailingRow, r ∈ GradeManager.get_failing_students st ↔
      ∃ g ∈ st.grades, g.grade < 60 ∧
        ∃ s ∈ st.students, ∃ c ∈ st.courses, s.id = g.studentId ∧ c.id = g.courseId ∧
          r = ⟨s.name, s.id, s.email, c.name, g.grade, g.letter⟩ := by
    intro r
    rw [GradeManager.get_failing_students, List.mem_insertionSort, failingRowsUnsorted,
      List.mem_filterMap]
    constructor
    · rintro ⟨g, hg, hf⟩
      by_cases hlt : g.grade < (60 : ℚ)
      · rw [if_pos hlt] at hf
        cases hfind_s : st.students.find? fun s => s.id == g.studentId with
        | none => rw [hfind_s] at hf; simp at hf
        | some s0 =>
          cases hfind_c : st.courses.find? fun c => c.id == g.courseId with
          | none => rw [hfind_s, hfind_c] at hf; simp at hf
          | some c0 =>
            rw [hfind_s, hfind_c] at hf
            simp only [Option.some.injEq] at hf
            refine ⟨g, hg, hlt, s0, List.mem_of_find?_eq_some hfind_s, c0,
              List.mem_of_find?_eq_some hfind_c, ?_, ?_, hf.symm⟩
            · simpa using List.find?_some hfind_s
            · simpa using List.find?_some hfind_c
      · rw [if_neg hlt] at hf; simp at hf
    · rintro ⟨g, hg, hlt, s, hsmem, c, hcmem, hsid, hcid, rfl⟩
      refine ⟨g, hg, ?_⟩
      have h1 := find?_eq_some_of_nodup (fun s0 : Student => s0.id)
        st.students g.studentId s hsn hsmem hsid
      have h2 := find?_eq_some_of_nodup (fun c0 : Course => c0.id)
        st.courses g.courseId c hcn hcmem hcid
      simp only [] at h1 h2
      rw [if_pos hlt, h1, h2]
  have hlen : (GradeManager.get_failing_students st).length =
      (st.grades.filter fun g => decide (g.grade < 60)).length := by
    rw [GradeManager.get_failing_students, List.length_insertionSort, failingRowsUnsorted]
    apply failing_len_aux
    intro g hg
    constructor
    · obtain ⟨s, hsmem, hsid⟩ := hfs g hg
      rw [List.find?_isSome]
      exact ⟨s, hsmem, by simp [hsid]⟩
    · obtain ⟨c, hcmem, hcid⟩ := hfc g hg
      rw [List.find?_isSome]
      exact ⟨c, hcmem, by simp [hcid]⟩
  refine ⟨?_, hmem, hlen, ?_, ?_⟩
  · rw [GradeManager.get_failing_students]
    exact List.sorted_insertionSort failingLE _
  · intro hnone
    rw [← List.length_eq_zero, hlen, List.length_eq_zero, List.filter_eq_nil_iff]
    intro g hg
    simpa using hnone g hg
  · intro r hr
    obtain ⟨g, hg, hlt, s, _, c, _, _, _, rfl⟩ := (hmem r).mp hr
    exact hlt

/-- Concrete state for the failing-students boundary: grade exactly 60 for one
student, 59 for another. -/
def exFailState : DBState :=
  { students := [⟨"S1", "Alice", none, none, 2024, 0, "active"⟩,
      ⟨"S2", "Bob", none, none, 2024, 0, "active"⟩],
    courses := [⟨"C1", "Math", "F24", 3, none, 30⟩],
    grades := [⟨"S1", "C1", 60, "D"⟩, ⟨"S2", "C1", 59, "F"⟩],
    log := [] }

/-- Witness for C7: the hypotheses hold on the concrete state, every listed
row is strictly below 60, and the report contains exactly the 59 row (the
grade of exactly 60 is not listed). -/
theorem get_failing_students_spec_witness :
    ((exFailState.students.map fun s => s.id).Nodup ∧
      (exFailState.courses.map fun c => c.id).Nodup ∧
      (∀ g ∈ exFailState.grades, ∃ s ∈ exFailState.students, s.id = g.studentId) ∧
      (∀ g ∈ exFailState.grades, ∃ c ∈ exFailState.courses, c.id = g.courseId)) ∧
    (∀ r ∈ GradeManager.get_failing_students exFailState, r.grade < 60) ∧
    GradeManager.get_failing_students exFailState =
      [⟨"Bob", "S2", none, "Math", 59, "F"⟩] :=
  ⟨⟨by decide, by decide, by decide, by decide⟩,
    (get_failing_students_spec exFailState (by decide) (by decide) (by decide)
      (by decide)).2.2.2.2,
    by decide⟩

instance : IsTotal RankRow rankingLE := ⟨fun a b => le_total b.gpa a.gpa⟩

instance : IsTrans RankRow rankingLE := ⟨fun _ _ _ hab hbc => le_trans hbc hab⟩

/-- Claim C8: the gpa rankings are exactly the students with stored gpa
strictly above 0, ordered by gpa descending; the academic-status report is
the same students in the same order with the standing label determined by
the 3.5 / 2.0 / 1.0 thresholds; and a student row with gpa exactly 0 appears
in neither report. -/
theorem gpa_rankings_status_spec (st : DBState) :
    (∀ r : RankRow, r ∈ Analytics.get_gpa_rankings st ↔
      ∃ s ∈ st.students, 0 < s.gpa ∧ r = rankRowOf st s) ∧
    (Analytics.get_gpa_rankings st).length =
      (st.students.filter fun s => decide (0 < s.gpa)).length ∧
    List.Sorted rankingLE (Analytics.get_gpa_rankings st) ∧
    ((Analytics.get_academic_status st).map fun q =>
        ({ name := q.name, id := q.id, gpa := q.gpa, courses := q.courses } : RankRow)) =
      Analytics.get_gpa_rankings st ∧
    (∀ q ∈ Analytics.get_academic_status st,
      (q.status = "Dean\x27s List" ↔ (3.5 : ℚ) ≤ q.gpa) ∧
      (q.status = "Good Standing" ↔ (2 : ℚ) ≤ q.gpa ∧ q.gpa < 3.5) ∧
      (q.status = "Warning" ↔ (1 : ℚ) ≤ q.gpa ∧ q.gpa < 2) ∧
      (q.status = "Academic Probation" ↔ q.gpa < 1)) ∧
    (∀ r ∈ Analytics.get_gpa_rankings st, r.gpa ≠ 0) ∧
    (∀ q ∈ Analytics.get_academic_status st, q.gpa ≠ 0) := by
  have hmem : ∀ r : RankRow, r ∈ Analytics.get_gpa_rankings st ↔
      ∃ s ∈ st.students, 0 < s.gpa ∧ r = rankRowOf st s := by
    intro r
    rw [Analytics.get_gpa_rankings, List.mem_insertionSort, List.mem_map]
    constructor
    · rintro ⟨s, hs, rfl⟩
      obtain ⟨hsm, hpos⟩ := List.mem_filter.mp hs
      exact ⟨s, hsm, by simpa using hpos, rfl⟩
    · rintro ⟨s, hsm, hpos, rfl⟩
      exact ⟨s, List.mem_filter.mpr ⟨hsm, by simpa using hpos⟩, rfl⟩
  have hproj : ((Analytics.get_academic_status st).map fun q =>
      ({ name := q.name, id := q.id, gpa := q.gpa, courses := q.courses } : RankRow)) =
      Analytics.get_gpa_rankings st := by
    rw [Analytics.get_academic_status, List.map_map]
    refine Eq.trans ?_ (List.map_id (Analytics.get_gpa_rankings st))
    apply List.map_congr_left
    intro r _
    rfl
  refine ⟨hmem, ?_, ?_, hproj, ?_, ?_, ?_⟩
  · rw [Analytics.get_gpa_rankings, List.length_insertionSort, List.length_map]
  · rw [Analytics.get_gpa_rankings]
    exact List.sorted_insertionSort rankingLE _
  · intro q hq
    rw [Analytics.get_academic_status, List.mem_map] at hq
    obtain ⟨r, _, rfl⟩ := hq
    dsimp only
    split_ifs with h1 h2 h3 <;>
      refine ⟨?_, ?_, ?_, ?_⟩ <;> simp <;> intros <;>
        first | (constructor <;> linarith) | linarith
  · intro r hr
    obtain ⟨s, _, hpos, rfl⟩ := (hmem r).mp hr
    exact ne_of_gt hpos
  · intro q hq
    rw [Analytics.get_academic_status, List.mem_map] at hq
    obtain ⟨r, hr, rfl⟩ := hq
    obtain ⟨s, _, hpos, rfl⟩ := (hmem r).mp hr
    exact ne_of_gt hpos

lemma credits_sum_pos (st : DBState) (sid : String)
    (hcr : ∀ c ∈ st.courses, 1 ≤ c.credits)
    (hfk : ∀ g ∈ st.grades, g.studentId = sid → ∃ c ∈ st.courses, c.id = g.courseId)
    (hne : studentGradeRows st sid ≠ []) :
    0 < ((studentGradeRows st sid).map fun g => creditsOf st g).sum := by
  apply List.sum_pos
  · intro x hx
    obtain ⟨g, hg, rfl⟩ := List.mem_map.mp hx
    simp only [studentGradeRows] at hg
    obtain ⟨hmem, hsid⟩ := List.mem_filter.mp hg
    simp only [beq_iff_eq] at hsid
    obtain ⟨c, hc, hcid⟩ := hfk g hmem hsid
    have hfind : (st.courses.find? fun c0 => c0.id == g.courseId).isSome :=
      List.find?_isSome.mpr ⟨c, hc, by simp [hcid]⟩
    obtain ⟨c0, hc0⟩ := Option.isSome_iff_exists.mp hfind
    have hcred := hcr c0 (List.mem_of_find?_eq_some hc0)
    unfold creditsOf
    rw [hc0]
    simpa using lt_of_lt_of_le Int.zero_lt_one hcred
  · simpa [studentGradeRows] using hne

lemma round2_zero : round2 0 = 0 := by
  norm_num [round2, Int.fract]

lemma mem_gpa_rankings (st : DBState) (r : RankRow) :
    r ∈ Analytics.get_gpa_rankings st ↔
      ∃ s ∈ st.students, 0 < s.gpa ∧ r = rankRowOf st s := by
  rw [Analytics.get_gpa_rankings, List.mem_insertionSort, List.mem_map]
  constructor
  · rintro ⟨s, hs, rfl⟩
    obtain ⟨hsm, hpos⟩ := List.mem_filter.mp hs
    exact ⟨s, hsm, by simpa using hpos, rfl⟩
  · rintro ⟨s, hsm, hpos, rfl⟩
    exact ⟨s, List.mem_filter.mpr ⟨hsm, by simpa using hpos⟩, rfl⟩

/-- Claim C10: a student whose recorded grades are all strictly below 60
(every grade worth 0 gpa points) gets gpa exactly 0 from the recalculation,
and is therefore excluded from both the gpa rankings and the academic-status
report even though grade rows exist. -/
theorem all_failing_grades_gpa_zero (st : DBState) (sid : String)
    (hex : ∃ g ∈ st.grades, g.studentId = sid)
    (hfail : ∀ g ∈ st.grades, g.studentId = sid → g.grade < 60)
    (hfk : ∀ g ∈ st.grades, g.studentId = sid → ∃ c ∈ st.courses, c.id = g.courseId)
    (hcr : ∀ c ∈ st.courses, 1 ≤ c.credits)
    (hs : ∃ s ∈ st.students, s.id = sid) :
    getGpa (GradeManager.update_student_gpa sid st) sid = some 0 ∧
    (∀ r ∈ Analytics.get_gpa_rankings (GradeManager.update_student_gpa sid st),
      r.id ≠ sid) ∧
    (∀ q ∈ Analytics.get_academic_status (GradeManager.update_student_gpa sid st),
      q.id ≠ sid) := by
  have hjoin := studentCredJoin_eq_rows st sid hfk
  have hne : studentGradeRows st sid ≠ [] := by
    obtain ⟨g, hg, hgs⟩ := hex
    intro hnil
    have hmem : g ∈ studentGradeRows st sid := by
      simp [studentGradeRows, List.mem_filter, hg, hgs]
    rw [hnil] at hmem
    cases hmem
  have h1 : studentCredJoin st sid ≠ [] := by
    rw [hjoin]; simpa using hne
  have h2 : ((studentCredJoin st sid).map fun p => p.2).sum =
      ((studentGradeRows st sid).map fun g => creditsOf st g).sum := by
    rw [hjoin, List.map_map]; rfl
  have h3 : ((studentCredJoin st sid).map fun p =>
        GradeManager.grade_to_gpa_points p.1 * (p.2 : ℚ)).sum =
      ((studentGradeRows st sid).map fun g =>
        GradeManager.grade_to_gpa_points g.grade * (creditsOf st g : ℚ)).sum := by
    rw [hjoin, List.map_map]; rfl
  have htp : ((studentGradeRows st sid).map fun g =>
      GradeManager.grade_to_gpa_points g.grade * (creditsOf st g : ℚ)).sum = 0 := by
    apply List.sum_eq_zero
    intro x hx
    obtain ⟨g, hg, rfl⟩ := List.mem_map.mp hx
    simp only [studentGradeRows] at hg
    obtain ⟨hmem, hsid⟩ := List.mem_filter.mp hg
    simp only [beq_iff_eq] at hsid
    have hlt := hfail g hmem hsid
    have hpts : GradeManager.grade_to_gpa_points g.grade = 0 := by
      unfold GradeManager.grade_to_gpa_points
      rw [if_neg (by linarith), if_neg (by linarith), if_neg (by linarith),
        if_neg (by linarith)]
    rw [hpts, zero_mul]
  have hpos := credits_sum_pos st sid hcr hfk hne
  have hv : gpaNew st sid = some 0 := by
    simp only [gpaNew]
    rw [if_neg h1, h2, h3, htp, if_pos hpos, zero_div, round2_zero]
  have hstudents : (GradeManager.update_student_gpa sid st).students =
      st.students.map fun s => if s.id = sid then { s with gpa := 0 } else s := by
    rw [update_student_gpa_students, hv]
  have hall : ∀ s ∈ (GradeManager.update_student_gpa sid st).students,
      s.id = sid → s.gpa = 0 := by
    rw [hstudents]
    intro s hsm hsid
    obtain ⟨s1, _, rfl⟩ := List.mem_map.mp hsm
    by_cases h : s1.id = sid
    · simp [h]
    · rw [if_neg h] at hsid ⊢
      exact absurd hsid h
  have hrank : ∀ r ∈ Analytics.get_gpa_rankings (GradeManager.update_student_gpa sid st),
      r.id ≠ sid := by
    intro r hr
    obtain ⟨s, hsm, hpos0, rfl⟩ := (mem_gpa_rankings _ r).mp hr
    intro hid
    have hgz : s.gpa = 0 := hall s hsm (by simpa [rankRowOf] using hid)
    rw [hgz] at hpos0
    exact lt_irrefl 0 hpos0
  refine ⟨?_, hrank, ?_⟩
  · rw [update_student_gpa_eq, hv]
    dsimp only
    rw [getGpa_set]
    obtain ⟨s0, hs0m, hs0id⟩ := hs
    have hf : (st.students.find? fun s => s.id == sid).isSome :=
      List.find?_isSome.mpr ⟨s0, hs0m, by simp [hs0id]⟩
    obtain ⟨s1, hs1⟩ := Option.isSome_iff_exists.mp hf
    have : getGpa st sid = some s1.gpa := by rw [getGpa, hs1]; rfl
    rw [this]
    rfl
  · intro q hq
    rw [Analytics.get_academic_status, List.mem_map] at hq
    obtain ⟨r, hr, rfl⟩ := hq
    exact hrank r hr

/-- Concrete state for the upsert witness: one student and one course. -/
def exUpsertState : DBState :=
  { students := [⟨"S1", "Alice", none, none, 2024, 0, "active"⟩],
    courses := [⟨"C1", "Math", "F24", 3, none, 30⟩],
    grades := [], log := [] }

/-- Witness for C3 on the concrete one-student one-course state. -/
theorem add_upsert_latest_witness :
    ((∃ s ∈ exUpsertState.students, s.id = "S1") ∧
      (∃ c ∈ exUpsertState.courses, c.id = "C1")) ∧
    ∃ st1 st2 st3,
      GradeManager.add "S1" "C1" (some 55) 7 exUpsertState = .ok st1 ∧
      GradeManager.add "S1" "C1" (some 91) 7 st1 = .ok st2 ∧
      GradeManager.add "S1" "C1" (some 91) 7 exUpsertState = .ok st3 ∧
      (st2.grades.filter fun r => r.studentId == "S1" && r.courseId == "C1") =
        [{ studentId := "S1", courseId := "C1", grade := 91, letter := "A" }] ∧
      st2.grades = st3.grades ∧
      st2.students = st3.students :=
  ⟨⟨by decide, by decide⟩,
    add_upsert_latest exUpsertState "S1" "C1" 7 (by decide) (by decide)⟩

/-- Concrete state for the all-failing witness: one student with initial gpa 2
and a single failing grade of 59. -/
def exProbState : DBState :=
  { students := [⟨"S1", "Alice", none, none, 2024, 2, "active"⟩],
    courses := [⟨"C1", "Math", "F24", 3, none, 30⟩],
    grades := [⟨"S1", "C1", 59, "F"⟩],
    log := [] }

/-- Witness for C10 on the concrete all-failing state. -/
theorem all_failing_grades_gpa_zero_witness :
    ((∃ g ∈ exProbState.grades, g.studentId = "S1") ∧
      (∀ g ∈ exProbState.grades, g.studentId = "S1" → g.grade < 60) ∧
      (∀ g ∈ exProbState.grades, g.studentId = "S1" →
        ∃ c ∈ exProbState.courses, c.id = g.courseId) ∧
      (∀ c ∈ exProbState.courses, 1 ≤ c.credits) ∧
      (∃ s ∈ exProbState.students, s.id = "S1")) ∧
    (getGpa (GradeManager.update_student_gpa "S1" exProbState) "S1" = some 0 ∧
      (∀ r ∈ Analytics.get_gpa_rankings (GradeManager.update_student_gpa "S1" exProbState),
        r.id ≠ "S1") ∧
      (∀ q ∈ Analytics.get_academic_status (GradeManager.update_student_gpa "S1" exProbState),
        q.id ≠ "S1")) :=
  ⟨⟨by decide, by decide, by decide, by decide, by decide⟩,
    all_failing_grades_gpa_zero exProbState "S1" (by decide) (by decide) (by decide)
      (by decide) (by decide)⟩

lemma import_fold_count :
    ∀ (rows : List CsvRow) (st : DBState) (n : Nat),
      (rows.foldl (fun (acc : DBState × Nat) row =>
          match yearValue row.yearField with
          | none => acc
          | some y => (insertOrIgnoreStudent acc.1 row y, acc.2 + 1)) (st, n)).2 =
        n + (rows.filter fun r => (yearValue r.yearField).isSome).length := by
  intro rows
  induction rows with
  | nil => intro st n; simp
  | cons r t ih =>
    intro st n
    simp only [List.foldl_cons, List.filter_cons]
    cases hy : yearValue r.yearField with
    | none =>
      simpa using ih st n
    | some y =>
      dsimp only
      rw [ih (insertOrIgnoreStudent st r y) (n + 1)]
      simp only [Option.isSome_some, eq_self_iff_true, if_true, List.length_cons]
      omega

lemma insertOrIgnoreStudent_nodup (st : DBState) (r : CsvRow) (y : Int)
    (hnd : (st.students.map fun s => s.id).Nodup) :
    ((insertOrIgnoreStudent st r y).students.map fun s => s.id).Nodup := by
  simp only [insertOrIgnoreStudent]
  split_ifs with h
  · exact hnd
  · have hany : (st.students.any fun s => s.id == r.id) = false := by
      rcases Bool.or_eq_false_iff.mp (Bool.eq_false_iff.mpr h) with ⟨h1, _⟩
      exact h1
    have hnotmem : r.id ∉ st.students.map fun s => s.id := by
      intro hmem
      obtain ⟨s, hsm, hsid⟩ := List.mem_map.mp hmem
      have := List.any_eq_false.mp hany s hsm
      simp [hsid] at this
    simp only [List.map_append, List.map_cons, List.map_nil]
    rw [List.nodup_append]
    exact ⟨hnd, List.nodup_singleton _, by simpa using hnotmem⟩

lemma import_fold_nodup :
    ∀ (rows : List CsvRow) (st : DBState) (n : Nat),
      (st.students.map fun s => s.id).Nodup →
      (((rows.foldl (fun (acc : DBState × Nat) row =>
          match yearValue row.yearField with
          | none => acc
          | some y => (insertOrIgnoreStudent acc.1 row y, acc.2 + 1)) (st, n)).1.students.map
        fun s => s.id).Nodup) := by
  intro rows
  induction rows with
  | nil => intro st n h; exact h
  | cons r t ih =>
    intro st n h
    simp only [List.foldl_cons]
    cases hy : yearValue r.yearField with
    | none =>
      exact ih st n h
    | some y =>
      exact ih (insertOrIgnoreStudent st r y) (n + 1) (insertOrIgnoreStudent_nodup st r y h)

/-- Claim C9 amended: during CSV import a row whose id already exists is
skipped by INSERT OR IGNORE without raising, but it IS counted in the
returned total: the count equals the number of rows whose insert statement
ran without an exception (only a failing enrollment_year parse skips a row),
not the number of rows actually inserted.  Existing rows are never
overwritten and id uniqueness is preserved. -/
theorem import_students_csv_count (st : DBState) (rows : List CsvRow) (u : Int)
    (hnd : (st.students.map fun s => s.id).Nodup) :
    (ImportExport.import_students_csv rows u st).2 =
      (rows.filter fun r => (yearValue r.yearField).isSome).length ∧
    (((ImportExport.import_students_csv rows u st).1.students.map fun s => s.id).Nodup) := by
  constructor
  · show (ActivityLog.log u "import_students" _ _, _).2 = _
    simpa using import_fold_count rows st 0
  · show ((ActivityLog.log u "import_students" _ _).students.map fun s => s.id).Nodup
    rw [log_students]
    exact import_fold_nodup rows st 0 hnd

/-- Concrete state for the duplicate-import example: student S1 present. -/
def exImpState : DBState :=
  { students := [⟨"S1", "Alice", none, none, 2023, 0, "active"⟩],
    courses := [], grades := [], log := [] }

/-- Counterexample to claim C9 as stated: importing one row whose id S1
already exists leaves the students table unchanged (zero rows inserted) yet
returns a count of 1, so the count does not equal the number of rows
actually inserted and the duplicate row was counted. -/
theorem import_duplicate_counted_cex :
    (ImportExport.import_students_csv
        [⟨"S1", "Alice B", none, none, some (some 2024)⟩] 7 exImpState).2 = 1 ∧
    (ImportExport.import_students_csv
        [⟨"S1", "Alice B", none, none, some (some 2024)⟩] 7 exImpState).1.students =
      exImpState.students := by
  constructor <;> rfl

/-- Witness for the amended C9 at the duplicate-row input. -/
theorem import_students_csv_count_witness :
    ((exImpState.students.map fun s => s.id).Nodup) ∧
    ((ImportExport.import_students_csv
        [⟨"S1", "Alice B", none, none, some (some 2024)⟩] 7 exImpState).2 =
      (([⟨"S1", "Alice B", none, none, some (some 2024)⟩] : List CsvRow).filter
        fun r => (yearValue r.yearField).isSome).length ∧
    (((ImportExport.import_students_csv
        [⟨"S1", "Alice B", none, none, some (some 2024)⟩] 7 exImpState).1.students.map
      fun s => s.id).Nodup)) :=
  ⟨by decide,
    import_students_csv_count exImpState
      [⟨"S1", "Alice B", none, none, some (some 2024)⟩] 7 (by decide)⟩

/-- Claim C2: for every numeric grade in [0,100] the derived letter grade is
exactly characterised by the inclusive lower-bound threshold ladder:
A iff at least 90, B iff in [80,90), C iff in [70,80), D iff in [60,70),
F iff strictly below 60; so exactly 90, 80, 70 and 60 map to the higher
letter. -/
theorem calculate_letter_thresholds (g : ℚ) (h0 : 0 ≤ g) (h100 : g ≤ 100) :
    (GradeManager.calculate_letter g = "A" ↔ 90 ≤ g) ∧
    (GradeManager.calculate_letter g = "B" ↔ 80 ≤ g ∧ g < 90) ∧
    (GradeManager.calculate_letter g = "C" ↔ 70 ≤ g ∧ g < 80) ∧
    (GradeManager.calculate_letter g = "D" ↔ 60 ≤ g ∧ g < 70) ∧
    (GradeManager.calculate_letter g = "F" ↔ g < 60) := by
  unfold GradeManager.calculate_letter
  split_ifs with h1 h2 h3 h4 <;>
    refine ⟨?_, ?_, ?_, ?_, ?_⟩ <;> simp <;> intros <;>
      first | (constructor <;> linarith) | linarith

/-- Witness for C2 at the boundary value 60: the hypotheses hold and the
instantiated characterisation gives letter D at exactly 60. -/
theorem calculate_letter_thresholds_witness :
    ((0 : ℚ) ≤ 60 ∧ (60 : ℚ) ≤ 100) ∧
      (GradeManager.calculate_letter 60 = "D" ↔ (60 : ℚ) ≤ 60 ∧ (60 : ℚ) < 70) :=
  ⟨⟨by decide, by decide⟩,
    (calculate_letter_thresholds 60 (by decide) (by decide)).2.2.2.1⟩

end SMS
